import Mathlib

/-!
Verification development for the Farqon VisionAI repository.

The definitions below are a shallow embedding of the camera-session and
vision-query code of the repository:

- `captureCurrentFrame` embeds the imperative-handle frame capture of
  `src/components/chat/camera-feed.tsx` (lines 34 to 59).
- `handleToggleFacingMode` embeds the facing-mode toggle of the same file
  (lines 71 to 89).
- `CameraLifecycle` and its step functions embed the camera lifecycle
  effect of the same file (lines 130 to 305), including the per-effect
  closure variable `effectInstanceStream`, the cleanup function, and the
  asynchronous resolution of `getUserMedia`.
- `captureAndSendFrameForAnalysis` embeds the debounced auto-capture of
  the auto-analysis revision (unnamed part 005, lines 47 to 79).
- `rev1_handleSendMessage` and `rev1_handleAnalyzeFrame` embed the chat
  orchestration of `src/components/chat/chat-panel.tsx` (lines 89 to 208).
- `part010_buildRequest` embeds the request construction of the
  history-threading revision of the chat panel (unnamed part 010,
  lines 85 to 167) together with its schema (unnamed part 017).
- `orchStep` embeds the busy-flag gating of the manual-analysis revision
  of the chat panel (lines 581 to 646) and of `chat-input.tsx`.

Machine timestamps are embedded as `Int` (JavaScript `Date.now()` values),
image encodings as a record of width, height and a quality factor in
hundredths, and stream handles as natural-number identifiers.
-/

namespace FarqonVision

/-- Message author, from `ChatMessageData.role` in `src/types/index.ts`. -/
inductive Role where
  | user
  | assistant
deriving DecidableEq, Repr

/-- Result of `canvas.toDataURL` with a JPEG mime type: the off-screen
raster dimensions and the quality factor in hundredths (0.85 is 85). -/
structure JpegImage where
  width : Nat
  height : Nat
  qualityPct : Nat
deriving DecidableEq, Repr

/-- Observable state of the video element and its bound stream at the
moment of a capture call: `present` is `videoRef.current != null`,
`streamBound` is `internalStream != null`, `readyState`, `videoWidth`
and `videoHeight` come from the video element, and `contextOk` is
whether `canvas.getContext` returned a context. -/
structure VideoSurface where
  present : Bool
  streamBound : Bool
  readyState : Nat
  videoWidth : Nat
  videoHeight : Nat
  contextOk : Bool
deriving DecidableEq, Repr

/-- HTMLMediaElement readiness constant `HAVE_CURRENT_DATA`. -/
def HAVE_CURRENT_DATA : Nat := 2

/-- Embedding of `captureCurrentFrame` (camera-feed.tsx lines 34 to 59):
the guard requires the video element, a bound stream and
`readyState >= HAVE_CURRENT_DATA`; zero dimensions return `null`;
otherwise the frame is drawn at native resolution and encoded with
quality 0.85. Every failure path returns `none` rather than throwing. -/
def captureCurrentFrame (v : VideoSurface) : Option JpegImage :=
  if v.present = true ∧ v.streamBound = true ∧ HAVE_CURRENT_DATA ≤ v.readyState then
    if v.videoWidth = 0 ∨ v.videoHeight = 0 then
      none
    else if v.contextOk = true then
      some ⟨v.videoWidth, v.videoHeight, 85⟩
    else
      none
  else
    none

/-- Facing mode of the camera, user or environment in the source. -/
inductive FacingMode where
  | user
  | environment
deriving DecidableEq, Repr

/-- Toggling between the two facing modes, from the updater passed to
`setFacingMode` in `handleToggleFacingMode`. -/
def FacingMode.flip : FacingMode → FacingMode
  | .user => .environment
  | .environment => .user

/-- Calls against the camera hardware platform service. -/
inductive HwCall where
  | getUserMedia (mode : FacingMode)
  | stopTracks (stream : Nat)
deriving DecidableEq, Repr

/-- Component state of the camera feed that `handleToggleFacingMode`
can read or write (camera-feed.tsx lines 26 to 32). Streams are
identified by number. -/
structure CameraFeedComponentState where
  internalStream : Option Nat
  hasError : Bool
  isLoading : Bool
  facingMode : FacingMode
  hasCameraPermission : Option Bool
deriving DecidableEq, Repr

/-- Embedding of `handleToggleFacingMode` (camera-feed.tsx lines 71 to
89): while `isLoading` or the parent-supplied `isCameraProcessing` is
true the handler returns without touching any state; otherwise it sets
`isLoading` and flips `facingMode`. The handler itself issues no
hardware call in either case (the lifecycle effect reacts later). -/
def handleToggleFacingMode (isCameraProcessing : Bool)
    (s : CameraFeedComponentState) : CameraFeedComponentState × List HwCall :=
  if s.isLoading = true ∨ isCameraProcessing = true then
    (s, [])
  else
    ({ s with isLoading := true, facingMode := s.facingMode.flip }, [])

/-! Auto-capture scheduler, from unnamed part 005. -/

/-- Environment observed by one tick of the auto-analysis interval:
the current clock value, the video surface, and the two gating flags
read inside `captureAndSendFrameForAnalysis`. -/
structure AutoCaptureEnv where
  now : Int
  surface : VideoSurface
  isAiAnalyzing : Bool
  isCameraActive : Bool
deriving DecidableEq, Repr

/-- Embedding of `captureAndSendFrameForAnalysis` (part 005 lines 47 to
79). The state is `lastCaptureTimeRef.current`, with 0 as the
no-capture-yet sentinel. The JavaScript debounce comparison
`now - last < analysisIntervalMs / 2` over real division is written as
`2 * (now - last) < intervalMs` over integers. The result is the new
`lastCaptureTimeRef.current` together with the frame handed to
`onFrameForAnalysis`, if any. -/
def captureAndSendFrameForAnalysis (intervalMs : Int) (lastCaptureTime : Int)
    (e : AutoCaptureEnv) : Int × Option JpegImage :=
  if e.surface.present = true ∧ e.surface.streamBound = true ∧
      HAVE_CURRENT_DATA ≤ e.surface.readyState ∧
      e.isAiAnalyzing = false ∧ e.isCameraActive = true then
    if 2 * (e.now - lastCaptureTime) < intervalMs ∧ lastCaptureTime ≠ 0 then
      (lastCaptureTime, none)
    else if e.surface.videoWidth = 0 ∨ e.surface.videoHeight = 0 then
      (lastCaptureTime, none)
    else if e.surface.contextOk = true then
      (e.now, some ⟨e.surface.videoWidth, e.surface.videoHeight, 85⟩)
    else
      (lastCaptureTime, none)
  else
    (lastCaptureTime, none)

/-- Timestamps of the successful auto-captures produced by a sequence of
scheduler ticks, threading `lastCaptureTimeRef` through the ticks. -/
def autoCaptureTimes (intervalMs : Int) (lastCaptureTime : Int) :
    List AutoCaptureEnv → List Int
  | [] => []
  | e :: es =>
    match captureAndSendFrameForAnalysis intervalMs lastCaptureTime e with
    | (st, some _) => e.now :: autoCaptureTimes intervalMs st es
    | (st, none) => autoCaptureTimes intervalMs st es

/-! Chat data model, from `src/types/index.ts`. -/

/-- Embedding of `ChatMessageData`. Identifiers are numbers; the data
URI of an attached image is abstracted to the encoded image itself.
The optional `isError` flag defaults to false when absent. -/
structure ChatMessageData where
  id : Nat
  role : Role
  content : String
  image : Option JpegImage
  isError : Bool
deriving DecidableEq, Repr

/-- Input of the `contextualChatWithVision` flow, from the zod schema
`ContextualChatWithVisionInputSchema` in unnamed part 017: an optional
current-turn photo, the question, and the history as role and text. -/
structure ChatRequest where
  photoDataUri : Option JpegImage
  question : String
  history : List (Role × String)
deriving DecidableEq, Repr

/-- Calls dispatched to the AI collaborators during one turn. -/
inductive AiCall where
  | contextualChat (req : ChatRequest)
  | analyzeFeed (photoDataUri : JpegImage)
deriving DecidableEq, Repr

/-- Result of one fully completed orchestrator turn: the message list
after every append, the busy flag after completion, and the AI calls
that were dispatched during the turn. -/
structure TurnResult where
  messages : List ChatMessageData
  isLoading : Bool
  aiCalls : List AiCall
deriving DecidableEq, Repr

/-- Guidance text appended when the camera is off and no prior image
exists (chat-panel.tsx line 136). -/
def rev1NoCamNoCtxMsg : String :=
  "Kamera tidak aktif dan tidak ada gambar sebelumnya untuk konteks. Aktifkan kamera dan tangkap frame jika pertanyaan Anda terkait visual."

/-- Guidance text appended when the camera is on but no prior image
exists (chat-panel.tsx line 153). -/
def rev1PromptCaptureMsg : String :=
  "Kamera aktif. Untuk bertanya tentang apa yang Anda lihat sekarang, silakan tekan tombol rana (ikon Aperture di bawah video) untuk menangkap gambar terlebih dahulu. Setelah itu, saya bisa menjawab pertanyaan Anda tentang gambar tersebut."

/-- Fallback text of the defensive dead branch (chat-panel.tsx line 202). -/
def rev1FallbackMsg : String :=
  "Saya tidak yakin gambar mana yang harus dirujuk. Silakan coba aktifkan kamera dan tangkap frame baru jika pertanyaan Anda visual."

/-- Most recent image in the message history, searching the stored
(chronological) list from its end, from
`messages.slice().reverse().find(msg => msg.image)?.image`
(chat-panel.tsx line 128). -/
def latestHistoryImage (messages : List ChatMessageData) : Option JpegImage :=
  (messages.reverse.find? (fun m => m.image.isSome)).bind (fun m => m.image)

/-- Embedding of `handleSendMessage` of the first chat-panel revision
(chat-panel.tsx lines 123 to 208), run to completion of the turn.
`uid` is the fresh `Date.now` identifier of the optimistic user
message; the assistant message of the same turn gets `uid + 1`.
`outcome` is the eventual result of the awaited AI call, unused on the
paths that return before dispatching one. Message appends, the image
backfill onto the user message, the dispatched calls and the final
busy flag follow the source line by line. -/
def rev1_handleSendMessage (isCameraActive : Bool)
    (messages : List ChatMessageData) (uid : Nat) (userQuestion : String)
    (outcome : Except String String) : TurnResult :=
  let imageToUseForQuestion := latestHistoryImage messages
  let messages := messages ++ [⟨uid, .user, userQuestion, none, false⟩]
  if isCameraActive = false ∧ imageToUseForQuestion = none then
    { messages := messages ++ [⟨uid + 1, .assistant, rev1NoCamNoCtxMsg, none, true⟩]
      isLoading := false
      aiCalls := [] }
  else if isCameraActive = true ∧ imageToUseForQuestion = none then
    { messages := messages ++ [⟨uid + 1, .assistant, rev1PromptCaptureMsg, none, false⟩]
      isLoading := false
      aiCalls := [] }
  else
    match imageToUseForQuestion with
    | some img =>
      let messages := messages.map
        (fun m => if m.id = uid then { m with image := some img } else m)
      let call := AiCall.contextualChat ⟨some img, userQuestion, []⟩
      match outcome with
      | .ok answer =>
        { messages := messages ++ [⟨uid + 1, .assistant, answer, none, false⟩]
          isLoading := false
          aiCalls := [call] }
      | .error e =>
        { messages := messages ++ [⟨uid + 1, .assistant, e, none, true⟩]
          isLoading := false
          aiCalls := [call] }
    | none =>
      { messages := messages ++ [⟨uid + 1, .assistant, rev1FallbackMsg, none, true⟩]
        isLoading := false
        aiCalls := [] }

/-- Embedding of `handleAnalyzeFrame` (chat-panel.tsx lines 89 to 112),
run to completion: append the optimistic user message carrying the
image, dispatch `analyzeCameraFeed`, append the assistant answer or the
error message, and clear the busy flag in the finally block. -/
def rev1_handleAnalyzeFrame (messages : List ChatMessageData) (uid : Nat)
    (img : JpegImage) (outcome : Except String String) : TurnResult :=
  let messages := messages ++ [⟨uid, .user, "Analisis gambar ini.", some img, false⟩]
  match outcome with
  | .ok summary =>
    { messages := messages ++ [⟨uid + 1, .assistant, summary, none, false⟩]
      isLoading := false
      aiCalls := [.analyzeFeed img] }
  | .error e =>
    { messages := messages ++ [⟨uid + 1, .assistant, e, none, true⟩]
      isLoading := false
      aiCalls := [.analyzeFeed img] }

/-! History-threading revision of the chat panel, unnamed part 010. -/

/-- Message append of part 010: `setMessages(prev => [message, ...prev])`
stores the list newest first. -/
def part010_addMessage (messages : List ChatMessageData)
    (m : ChatMessageData) : List ChatMessageData :=
  m :: messages

/-- Message store obtained after appending the given messages in order
to an empty chat, through `part010_addMessage`. -/
def part010_messagesAfter (appended : List ChatMessageData) :
    List ChatMessageData :=
  appended.foldl part010_addMessage []

/-- Image captured for the current turn in part 010 lines 94 to 103:
`captureCurrentFrame` is invoked exactly when the camera is active,
and a failed capture leaves the turn without an image. -/
def part010_captureForTurn (isCameraActive : Bool) (surf : VideoSurface) :
    Option JpegImage :=
  if isCameraActive = true then captureCurrentFrame surf else none

/-- History payload of part 010 lines 112 to 114:
`[...messages].reverse().map(msg => (role, content))`, restoring
chronological order (the store is newest first) and dropping images. -/
def part010_historyForAI (messages : List ChatMessageData) :
    List (Role × String) :=
  messages.reverse.map (fun m => (m.role, m.content))

/-- Request dispatched to `contextualChatWithVision` by part 010
lines 120 to 124, built from the capture attempt, the question, and
the projected history. -/
def part010_buildRequest (isCameraActive : Bool) (surf : VideoSurface)
    (messages : List ChatMessageData) (q : String) : ChatRequest :=
  { photoDataUri := part010_captureForTurn isCameraActive surf
    question := q
    history := part010_historyForAI messages }

/-! Busy-flag gating, from the manual-analysis revision of the chat
panel (chat-panel.tsx lines 581 to 646) and from `chat-input.tsx`. -/

/-- Orchestrator state: the `isAiAnalyzing` flag and, as
instrumentation, the number of AI collaborator calls currently
outstanding. -/
structure OrchState where
  isAiAnalyzing : Bool
  inFlight : Nat
deriving DecidableEq, Repr

/-- Initial orchestrator state. -/
def orchInit : OrchState := ⟨false, 0⟩

/-- User-level events hitting the orchestrator. `submitAsk` is a chat
form submission: `ChatInput.handleSubmit` drops it while
`isLoading = isAiAnalyzing || isCameraProcessing` is true, and
`handleSendMessage` dispatches an AI call only when an image context
exists, clearing the transient busy flag otherwise within the same
handler. `triggerScene` is `triggerManualSceneAnalysis`, which rejects
while `isAiAnalyzing` and dispatches only when the camera is active and
the capture succeeds. `aiComplete` is the resolution of the awaited AI
call, whose finally block clears `isAiAnalyzing`. Each event runs
without suspension between its guard and its state update, matching
the single-threaded event loop. -/
inductive OrchEvent where
  | submitAsk (isCameraProcessing hasImageContext : Bool)
  | triggerScene (isCameraActive captureOk : Bool)
  | aiComplete
deriving DecidableEq, Repr

/-- One orchestrator event, embedded from the guards of
`ChatInput.handleSubmit`, `handleSendMessage` (lines 604 to 646) and
`triggerManualSceneAnalysis` (lines 581 to 601). -/
def orchStep (s : OrchState) : OrchEvent → OrchState
  | .submitAsk proc hasCtx =>
    if s.isAiAnalyzing = true ∨ proc = true then s
    else if hasCtx = true then ⟨true, s.inFlight + 1⟩
    else s
  | .triggerScene act capOk =>
    if s.isAiAnalyzing = true then s
    else if act = false then s
    else if capOk = true then ⟨true, s.inFlight + 1⟩
    else s
  | .aiComplete =>
    match s.inFlight with
    | 0 => s
    | n + 1 => ⟨false, n⟩

/-- Orchestrator state after a sequence of events. -/
def orchRun (s : OrchState) : List OrchEvent → OrchState
  | [] => s
  | e :: es => orchRun (orchStep s e) es

/-- Single-flight invariant: never more than one outstanding AI call,
and none at all while the busy flag is down. -/
def orchInv (s : OrchState) : Prop :=
  s.inFlight ≤ 1 ∧ (s.isAiAnalyzing = false → s.inFlight = 0)

/-- Sample ready surface used in concrete evaluations. -/
def surfReady : VideoSurface := ⟨true, true, 4, 640, 480, true⟩

/-- Sample surface whose stream has been lost, so capture returns none. -/
def surfNoStream : VideoSurface := ⟨true, false, 0, 640, 480, true⟩

/-- Sample user question used in concrete evaluations. -/
def sampleQuestion : String := "Berapa banyak cangkir yang ada di meja ini"

/-- Sample assistant answer used in concrete evaluations. -/
def sceneSummaryText : String := "Ringkasan pemandangan."

/-- Sample history image used in concrete evaluations. -/
def histImgSample : JpegImage := ⟨320, 240, 85⟩

/-! Camera lifecycle effect, camera-feed.tsx lines 130 to 305.

Each run of the effect creates one instance with its own closure
variable `effectInstanceStream`; the cleanup function of an instance
runs exactly once, when the dependencies change or on unmount, and it
stops whatever that closure variable holds at that moment. The awaited
`getUserMedia` of an instance may resolve after the cleanup of that
instance already ran; the continuation then still writes the stream
into the closure variable and into the shared `internalStream` state
and starts playback, exactly as the source does. Permission is taken
to be granted throughout, matching the sources cited for the claim. -/

/-- One run of the lifecycle effect: the `effectInstanceStream` closure
variable, whether its `getUserMedia` is still awaited, and whether its
cleanup has run. -/
structure EffectInst where
  closureStream : Option Nat
  pendingAcq : Bool
  cleanedUp : Bool
deriving DecidableEq, Repr

/-- Full state of the camera-feed component together with the
instrumentation counters for claim C1: `stopCalls` records every
stream id handed to `stopCameraTracks` with a live stream, and
`startedStreams` records every stream whose playback started
(`onStarted`, that is, the acquisition reached the Active state).
Instances are stored oldest first; the last entry is the instance of
the most recent effect run. -/
structure CameraLifecycle where
  isCameraActive : Bool
  insts : List EffectInst
  internalStream : Option Nat
  isLoading : Bool
  nextStreamId : Nat
  stopCalls : List Nat
  startedStreams : List Nat
deriving DecidableEq, Repr

/-- Applies a function to the last element of a list, if any. -/
def updLast (f : EffectInst → EffectInst) : List EffectInst → List EffectInst
  | [] => []
  | [i] => [f i]
  | i :: is => i :: updLast f is

/-- Applies a function to the element at an index, if present. -/
def updAt (n : Nat) (f : EffectInst → EffectInst) :
    List EffectInst → List EffectInst
  | [] => []
  | i :: is =>
    match n with
    | 0 => f i :: is
    | m + 1 => i :: updAt m f is

/-- Current effect instance: the last one created. -/
def currentInst (l : List EffectInst) : EffectInst :=
  l.getLastD ⟨none, false, false⟩

/-- Cleanup function of the current effect instance (lines 284 to 303):
stop the tracks of `effectInstanceStream`, clear `internalStream` when
it is the same stream, and clear `isLoading`. -/
def cleanupCurrent (m : CameraLifecycle) : CameraLifecycle :=
  let inst := currentInst m.insts
  { m with
    stopCalls :=
      match inst.closureStream with
      | some s => m.stopCalls ++ [s]
      | none => m.stopCalls
    internalStream :=
      if m.internalStream = inst.closureStream then none else m.internalStream
    isLoading := false
    insts := updLast (fun i => { i with cleanedUp := true }) m.insts }

/-- Body of a fresh effect run (lines 266 to 282): when the camera is
active, `startCamera` sets `isLoading` and awaits `getUserMedia`
(recorded as a pending acquisition of the current instance); when it
is inactive, the tracks of `internalStream` are stopped if present. -/
def effectBody (m : CameraLifecycle) : CameraLifecycle :=
  if m.isCameraActive = true then
    { m with
      isLoading := true
      insts := updLast (fun i => { i with pendingAcq := true }) m.insts }
  else
    let m1 :=
      match m.internalStream with
      | some s => { m with stopCalls := m.stopCalls ++ [s], internalStream := none }
      | none => m
    { m1 with isLoading := false }

/-- Change of the `isCameraActive` prop: when the value changes, the
cleanup of the previous effect instance runs, then a new instance is
created and the effect body runs with the new value. An unchanged
value does not re-run the effect. -/
def setDesiredActive (b : Bool) (m : CameraLifecycle) : CameraLifecycle :=
  if b = m.isCameraActive then m
  else
    let m1 := cleanupCurrent m
    let m2 := { m1 with
      isCameraActive := b
      insts := m1.insts ++ [⟨none, false, false⟩] }
    effectBody m2

/-- Resolution of the awaited `getUserMedia` of instance `i`
(lines 164 to 254): on success, a fresh stream is written both into the
closure variable and into `internalStream`, and playback is attempted;
successful playback fires `onStarted` (the stream is recorded as
started), while failed playback stops that stream and nulls both
references. On a `getUserMedia` error the catch block clears
`internalStream` and the closure variable. The continuation runs
identically whether or not the cleanup of instance `i` already ran,
because nothing in the source checks for staleness. -/
def resolveAcquisition (i : Nat) (gumOk playOk : Bool)
    (m : CameraLifecycle) : CameraLifecycle :=
  match m.insts.get? i with
  | none => m
  | some inst =>
    if inst.pendingAcq = false then m
    else
      let m1 := { m with
        insts := updAt i (fun j => { j with pendingAcq := false }) m.insts }
      if gumOk = true then
        let s := m1.nextStreamId
        let m2 := { m1 with
          nextStreamId := s + 1
          insts := updAt i (fun j => { j with closureStream := some s }) m1.insts
          internalStream := some s }
        if playOk = true then
          { m2 with isLoading := false, startedStreams := m2.startedStreams ++ [s] }
        else
          { m2 with
            isLoading := false
            stopCalls := m2.stopCalls ++ [s]
            internalStream := none
            insts := updAt i (fun j => { j with closureStream := none }) m2.insts }
      else
        { m1 with
          isLoading := false
          internalStream := none
          insts := updAt i (fun j => { j with closureStream := none }) m1.insts }

/-- Interleaved events of the camera lifecycle: prop changes, the
asynchronous resolution of a pending acquisition, and unmount. -/
inductive CameraStep where
  | setActive (b : Bool)
  | resolveAcq (inst : Nat) (gumOk playOk : Bool)
  | unmount
deriving DecidableEq, Repr

/-- One lifecycle event. -/
def cameraStep (m : CameraLifecycle) : CameraStep → CameraLifecycle
  | .setActive b => setDesiredActive b m
  | .resolveAcq i g p => resolveAcquisition i g p m
  | .unmount => cleanupCurrent m

/-- Lifecycle state after a sequence of events. -/
def cameraRun (m : CameraLifecycle) : List CameraStep → CameraLifecycle
  | [] => m
  | st :: rest => cameraRun (cameraStep m st) rest

/-- State after the initial mount: the camera is off and the first
effect run did nothing. -/
def cameraInit : CameraLifecycle :=
  { isCameraActive := false
    insts := [⟨none, false, false⟩]
    internalStream := none
    isLoading := false
    nextStreamId := 0
    stopCalls := []
    startedStreams := [] }

/-- Trace in which the camera is turned off while `getUserMedia` is
still awaited, after which the acquisition resolves successfully and
playback starts, and the component finally unmounts. -/
def deactivateDuringAcqTrace : List CameraStep :=
  [.setActive true, .setActive false, .resolveAcq 1 true true, .unmount]

/-- Ordinary trace: turn the camera on, let the acquisition resolve and
play, turn the camera off, unmount. -/
def normalOnOffTrace : List CameraStep :=
  [.setActive true, .resolveAcq 1 true true, .setActive false, .unmount]

/-! Theorems. -/

/-- C6: `captureCurrentFrame` renders the current video surface at its
native resolution and encodes it at the fixed quality factor 0.85
(85 hundredths); a surface reporting zero width or zero height yields
`none` rather than an error, and no error is surfaced. -/
theorem captureFrame_native_resolution_fixed_quality (v : VideoSurface) :
    ((v.videoWidth = 0 ∨ v.videoHeight = 0) → captureCurrentFrame v = none) ∧
    (∀ img : JpegImage, captureCurrentFrame v = some img →
      img.width = v.videoWidth ∧ img.height = v.videoHeight ∧ img.qualityPct = 85) := by
  unfold captureCurrentFrame
  constructor
  · intro h
    split_ifs <;> simp_all
  · intro img himg
    split_ifs at himg with h1 h2 h3
    injection himg with h
    subst h
    exact ⟨rfl, rfl, rfl⟩

/-- Witness for C6 at concrete surfaces: a zero-width surface captures
nothing, and a ready 640 by 480 surface encodes at 640 by 480 with
quality 85. -/
theorem captureFrame_native_resolution_fixed_quality_check :
    captureCurrentFrame ⟨true, true, 4, 0, 480, true⟩ = none ∧
    ((⟨640, 480, 85⟩ : JpegImage).width = 640 ∧
      (⟨640, 480, 85⟩ : JpegImage).height = 480 ∧
      (⟨640, 480, 85⟩ : JpegImage).qualityPct = 85) :=
  ⟨(captureFrame_native_resolution_fixed_quality ⟨true, true, 4, 0, 480, true⟩).1
      (Or.inl rfl),
   (captureFrame_native_resolution_fixed_quality surfReady).2 ⟨640, 480, 85⟩ (by decide)⟩

/-- C10: `captureCurrentFrame` returns `none` not only on zero
dimensions but also whenever no stream is bound or the readiness of the
video element is below HAVE_CURRENT_DATA; every call returns either an
encoded image from a fully ready surface or `none`, and the function is
total, so it never throws. -/
theorem captureFrame_ready_guard_total (v : VideoSurface) :
    (v.streamBound = false → captureCurrentFrame v = none) ∧
    (v.readyState < HAVE_CURRENT_DATA → captureCurrentFrame v = none) ∧
    (captureCurrentFrame v = none ∨
      (v.present = true ∧ v.streamBound = true ∧ HAVE_CURRENT_DATA ≤ v.readyState ∧
        0 < v.videoWidth ∧ 0 < v.videoHeight ∧ v.contextOk = true ∧
        captureCurrentFrame v = some ⟨v.videoWidth, v.videoHeight, 85⟩)) := by
  unfold captureCurrentFrame
  refine ⟨?_, ?_, ?_⟩
  · intro h
    split_ifs <;> simp_all
  · intro h
    split_ifs <;> simp_all
    omega
  · split_ifs with h1 h2 h3
    · exact Or.inl rfl
    · right
      refine ⟨h1.1, h1.2.1, h1.2.2, ?_, ?_, h3, rfl⟩ <;> omega
    · exact Or.inl rfl
    · exact Or.inl rfl

/-- Witness for C10 at concrete surfaces: no bound stream yields none,
and readiness 1 (below HAVE_CURRENT_DATA) yields none. -/
theorem captureFrame_ready_guard_total_check :
    captureCurrentFrame ⟨true, false, 4, 640, 480, true⟩ = none ∧
    captureCurrentFrame ⟨true, true, 1, 640, 480, true⟩ = none :=
  ⟨(captureFrame_ready_guard_total ⟨true, false, 4, 640, 480, true⟩).1 rfl,
   (captureFrame_ready_guard_total ⟨true, true, 1, 640, 480, true⟩).2.1 (by decide)⟩

/-- C7: `handleToggleFacingMode` invoked while the session is in a
transitional phase (`isLoading` or `isCameraProcessing` true, the
embedding of Acquiring, SwitchingMode and Releasing) leaves every
component field unchanged and issues no hardware call; otherwise it
records the new desired facing mode, again without a direct hardware
call. -/
theorem toggleFacingMode_transitional_noop (proc : Bool)
    (s : CameraFeedComponentState) :
    ((s.isLoading = true ∨ proc = true) →
      handleToggleFacingMode proc s = (s, [])) ∧
    (s.isLoading = false → proc = false →
      (handleToggleFacingMode proc s).1.facingMode = s.facingMode.flip ∧
      (handleToggleFacingMode proc s).2 = []) := by
  constructor
  · intro h
    unfold handleToggleFacingMode
    rw [if_pos h]
  · intro h1 h2
    unfold handleToggleFacingMode
    rw [if_neg (by simp [h1, h2])]
    exact ⟨rfl, rfl⟩

/-- Helper: every orchestrator event preserves the single-flight
invariant. -/
theorem orchStep_preserves_inv (s : OrchState) (e : OrchEvent)
    (h : orchInv s) : orchInv (orchStep s e) := by
  obtain ⟨hle, hzero⟩ := h
  cases e with
  | submitAsk proc hasCtx =>
    simp only [orchStep, orchInv]
    split_ifs with h1 h2
    · exact ⟨hle, hzero⟩
    · push_neg at h1
      have hoff : s.isAiAnalyzing = false := by
        cases hb : s.isAiAnalyzing
        · rfl
        · exact absurd hb h1.1
      simp [hzero hoff]
    · exact ⟨hle, hzero⟩
  | triggerScene act capOk =>
    simp only [orchStep, orchInv]
    split_ifs with h1 h2 h3
    · exact ⟨hle, hzero⟩
    · exact ⟨hle, hzero⟩
    · have hoff : s.isAiAnalyzing = false := by
        cases hb : s.isAiAnalyzing
        · rfl
        · exact absurd hb h1
      simp [hzero hoff]
    · exact ⟨hle, hzero⟩
  | aiComplete =>
    simp only [orchStep, orchInv]
    cases hin : s.inFlight with
    | zero => simp [hin, hzero, hle]
    | succ n =>
      simp only [hin] at hle
      simp [hin]
      omega

/-- Helper: the single-flight invariant holds along every run. -/
theorem orchRun_preserves_inv (tr : List OrchEvent) :
    ∀ s : OrchState, orchInv s → orchInv (orchRun s tr) := by
  induction tr with
  | nil => intro s h; exact h
  | cons e es ih =>
    intro s h
    exact ih (orchStep s e) (orchStep_preserves_inv s e h)

/-- C2: at any instant at most one AI analysis request is in flight:
after any event sequence at most one collaborator call is outstanding,
and while the busy flag is up both a chat submission and a manual
scene-analysis trigger leave the orchestrator unchanged (the second
request is dropped or rejected), so no two AI calls overlap. -/
theorem singleFlight_busy_invariant (tr : List OrchEvent) :
    (orchRun orchInit tr).inFlight ≤ 1 ∧
    (∀ s : OrchState, s.isAiAnalyzing = true →
      (∀ proc hasCtx, orchStep s (.submitAsk proc hasCtx) = s) ∧
      (∀ act capOk, orchStep s (.triggerScene act capOk) = s)) := by
  constructor
  · exact (orchRun_preserves_inv tr orchInit ⟨by simp [orchInit], by simp [orchInit]⟩).1
  · intro s hs
    constructor
    · intro proc hasCtx
      simp [orchStep, hs]
    · intro act capOk
      simp [orchStep, hs]

/-- Witness for C2 at a concrete run and a concrete busy state: after a
dispatched ask the outstanding count is at most one, and a second ask
against a busy orchestrator changes nothing. -/
theorem singleFlight_busy_invariant_check :
    (orchRun orchInit [.submitAsk false true, .triggerScene true true]).inFlight ≤ 1 ∧
    orchStep ⟨true, 1⟩ (.submitAsk false true) = (⟨true, 1⟩ : OrchState) :=
  ⟨(singleFlight_busy_invariant [.submitAsk false true, .triggerScene true true]).1,
   (((singleFlight_busy_invariant []).2 ⟨true, 1⟩ rfl).1 false true)⟩

/-- Helper: folding the prepending append of part 010 over a list of
appended messages stores them newest first. -/
theorem part010_messagesAfter_eq_reverse (l : List ChatMessageData) :
    part010_messagesAfter l = l.reverse := by
  have key : ∀ (xs acc : List ChatMessageData),
      xs.foldl part010_addMessage acc = xs.reverse ++ acc := by
    intro xs
    induction xs with
    | nil => intro acc; simp
    | cons x rest ih =>
      intro acc
      simp only [List.foldl_cons, List.reverse_cons, List.append_assoc]
      rw [ih]
      simp [part010_addMessage]
  simpa using key l []

/-- C9: the request dispatched for a user question carries the full
prior message sequence in conversation (append) order, each entry
reduced to role and text with images dropped, together with the
question of the current turn and the image captured for this turn. -/
theorem historyThreading_role_text_in_order (act : Bool) (surf : VideoSurface)
    (appended : List ChatMessageData) (q : String) :
    (part010_buildRequest act surf (part010_messagesAfter appended) q).history
      = appended.map (fun m => (m.role, m.content)) ∧
    (part010_buildRequest act surf (part010_messagesAfter appended) q).question = q ∧
    (part010_buildRequest act surf (part010_messagesAfter appended) q).photoDataUri
      = part010_captureForTurn act surf := by
  refine ⟨?_, rfl, rfl⟩
  simp [part010_buildRequest, part010_historyForAI, part010_messagesAfter_eq_reverse]

/-- C3 counterexample: with the camera active, a capture that returns
none and a history image available, part 010 dispatches the request
with no image at all, instead of falling back to the most recent image
present in chat history as the claim states. -/
theorem imagePolicy_no_history_fallback_counterexample :
    (part010_buildRequest true surfNoStream
        (part010_messagesAfter
          [⟨0, .assistant, sceneSummaryText, some histImgSample, false⟩])
        sampleQuestion).photoDataUri = none ∧
    captureCurrentFrame surfNoStream = none ∧
    (∃ m ∈ part010_messagesAfter
        [⟨0, .assistant, sceneSummaryText, some histImgSample, false⟩],
      m.image = some histImgSample) := by
  refine ⟨by decide, by decide, ?_⟩
  refine ⟨⟨0, .assistant, sceneSummaryText, some histImgSample, false⟩, ?_, rfl⟩
  simp [part010_messagesAfter, part010_addMessage]

/-- C3 amended: for every user question in the history-threading
revision, the image sent with the AI call is chosen as follows: if the
camera is active, `captureCurrentFrame` is attempted and its result is
the image of this turn; if capture returns none or the camera is
inactive, the call is dispatched with no image (text-only, with the
full history); images already present in chat history are never
attached to the request. -/
theorem imagePolicy_capture_only (act : Bool) (surf : VideoSurface)
    (messages : List ChatMessageData) (q : String) :
    (act = true →
      (part010_buildRequest act surf messages q).photoDataUri
        = captureCurrentFrame surf) ∧
    ((act = false ∨ captureCurrentFrame surf = none) →
      (part010_buildRequest act surf messages q).photoDataUri = none) ∧
    (part010_buildRequest act surf messages q).question = q := by
  refine ⟨?_, ?_, rfl⟩
  · intro h
    simp [part010_buildRequest, part010_captureForTurn, h]
  · rintro (h | h)
    · simp [part010_buildRequest, part010_captureForTurn, h]
    · cases act <;> simp [part010_buildRequest, part010_captureForTurn, h]

/-- Witness for C3 amended at concrete inputs: with the camera active
the dispatched image is the capture result, and with the camera off the
request carries no image. -/
theorem imagePolicy_capture_only_check :
    (part010_buildRequest true surfReady [] sampleQuestion).photoDataUri
      = captureCurrentFrame surfReady ∧
    (part010_buildRequest false surfReady [] sampleQuestion).photoDataUri = none :=
  ⟨(imagePolicy_capture_only true surfReady [] sampleQuestion).1 rfl,
   (imagePolicy_capture_only false surfReady [] sampleQuestion).2.1 (Or.inl rfl)⟩

/-- Witness for C7 at a concrete component state: a toggle during
parent processing changes nothing, and an unblocked toggle flips the
facing mode from environment to user. -/
theorem toggleFacingMode_transitional_noop_check :
    handleToggleFacingMode true ⟨none, false, false, .environment, some true⟩
      = (⟨none, false, false, .environment, some true⟩, []) ∧
    (handleToggleFacingMode false
        ⟨none, false, false, .environment, some true⟩).1.facingMode
      = FacingMode.environment.flip :=
  ⟨(toggleFacingMode_transitional_noop true
      ⟨none, false, false, .environment, some true⟩).1 (Or.inr rfl),
   ((toggleFacingMode_transitional_noop false
      ⟨none, false, false, .environment, some true⟩).2 rfl rfl).1⟩

/-- C4: the busy flag is set at dispatch and cleared on every
completion path of both orchestrator entry points: for every question,
history, and AI outcome, success, collaborator error and guard return
alike, the completed turn of `handleSendMessage` and of
`handleAnalyzeFrame` ends with the busy flag down. -/
theorem busy_cleared_on_all_paths (act : Bool)
    (messages : List ChatMessageData) (uid : Nat) (q : String)
    (outcome : Except String String) (img : JpegImage) :
    (rev1_handleSendMessage act messages uid q outcome).isLoading = false ∧
    (rev1_handleAnalyzeFrame messages uid img outcome).isLoading = false := by
  constructor
  · cases himg : latestHistoryImage messages <;> cases outcome <;>
      simp [rev1_handleSendMessage, himg] <;> split_ifs <;> rfl
  · cases outcome <;> rfl

/-- Helper: a history without images has no latest image. -/
theorem latestHistoryImage_eq_none (messages : List ChatMessageData)
    (h : ∀ m ∈ messages, m.image = none) :
    latestHistoryImage messages = none := by
  unfold latestHistoryImage
  have hfind : messages.reverse.find? (fun m => m.image.isSome) = none := by
    rw [List.find?_eq_none]
    intro m hm
    have := h m (List.mem_reverse.mp hm)
    simp [this]
  rw [hfind]
  rfl

/-- C5 counterexample: at the no-camera no-context input, the single
appended assistant message carries the error flag, contradicting the
claim that it is flagged not-error. -/
theorem noContext_assistant_flagged_error :
    ((rev1_handleSendMessage false [] 0 sampleQuestion
        (.ok sceneSummaryText)).messages.filter
          (fun m => m.role == Role.assistant)).map (fun m => m.isError)
      = [true] := by decide

/-- C5 amended: when the camera is off and no image exists anywhere in
chat history, a user question appends the optimistic user message and
then exactly one assistant message, flagged as an error
(`isError = true`), containing the guidance text; no AI collaborator
call is made, and the turn completes with the busy flag down and
without a crash. -/
theorem noContext_turn_single_error_guidance
    (messages : List ChatMessageData) (uid : Nat) (q : String)
    (outcome : Except String String) (h : ∀ m ∈ messages, m.image = none) :
    rev1_handleSendMessage false messages uid q outcome =
      { messages := messages ++ [⟨uid, .user, q, none, false⟩,
          ⟨uid + 1, .assistant, rev1NoCamNoCtxMsg, none, true⟩]
        isLoading := false
        aiCalls := [] } := by
  have himg := latestHistoryImage_eq_none messages h
  simp [rev1_handleSendMessage, himg]

/-- Witness for C5 amended at the empty chat: the turn appends the user
question and the error-flagged guidance message and dispatches no AI
call. -/
theorem noContext_turn_single_error_guidance_check :
    rev1_handleSendMessage false [] 0 sampleQuestion (.ok sceneSummaryText) =
      { messages := [⟨0, .user, sampleQuestion, none, false⟩,
          ⟨1, .assistant, rev1NoCamNoCtxMsg, none, true⟩]
        isLoading := false
        aiCalls := [] } :=
  noContext_turn_single_error_guidance [] 0 sampleQuestion
    (.ok sceneSummaryText) (by simp)

/-- Helper: one auto-capture tick either leaves the state unchanged and
sends nothing, or sends a frame, records the tick time, and, unless the
sentinel was set, witnesses that at least half the configured period
elapsed since the recorded last capture. -/
theorem captureAndSend_cases (intervalMs st : Int) (e : AutoCaptureEnv) :
    captureAndSendFrameForAnalysis intervalMs st e = (st, none) ∨
    (∃ img, captureAndSendFrameForAnalysis intervalMs st e = (e.now, some img) ∧
      (st ≠ 0 → intervalMs ≤ 2 * (e.now - st))) := by
  unfold captureAndSendFrameForAnalysis
  split_ifs with h1 h2 h3 h4
  · exact Or.inl rfl
  · exact Or.inl rfl
  · refine Or.inr ⟨_, rfl, ?_⟩
    intro hst
    rcases not_and_or.mp h2 with hlt | hne
    · omega
    · exact absurd hst hne
  · exact Or.inl rfl
  · exact Or.inl rfl

/-- Helper: starting from a nonzero recorded capture time, every
adjacent pair along the successful auto-capture times is at least half
the configured period apart. -/
theorem autoCaptureTimes_chain (intervalMs : Int) :
    ∀ envs : List AutoCaptureEnv, (∀ e ∈ envs, 0 < e.now) →
    ∀ st : Int, st ≠ 0 →
    List.Chain (fun a b => intervalMs ≤ 2 * (b - a)) st
      (autoCaptureTimes intervalMs st envs) := by
  intro envs
  induction envs with
  | nil =>
    intro _ st _
    exact List.Chain.nil
  | cons e es ih =>
    intro hpos st hst
    have he : 0 < e.now := hpos e (List.mem_cons_self e es)
    have hes : ∀ x ∈ es, 0 < x.now := fun x hx => hpos x (List.mem_cons_of_mem e hx)
    rcases captureAndSend_cases intervalMs st e with hpair | ⟨img, hpair, hgap⟩
    · simp only [autoCaptureTimes, hpair]
      exact ih hes st hst
    · simp only [autoCaptureTimes, hpair]
      exact List.Chain.cons (hgap hst) (ih hes e.now (ne_of_gt he))

/-- C8: for every sequence of scheduler ticks with positive clock
values, the debounce skips any attempt made less than half the
configured period after the last successful capture, so any two
consecutive successful auto-captures are at least half the configured
interval apart. -/
theorem autoCapture_debounce_half_interval (intervalMs : Int)
    (envs : List AutoCaptureEnv) (hpos : ∀ e ∈ envs, 0 < e.now) :
    List.Chain' (fun a b => intervalMs ≤ 2 * (b - a))
      (autoCaptureTimes intervalMs 0 envs) := by
  revert hpos
  induction envs with
  | nil =>
    intro _
    exact trivial
  | cons e es ih =>
    intro hpos
    have he : 0 < e.now := hpos e (List.mem_cons_self e es)
    have hes : ∀ x ∈ es, 0 < x.now := fun x hx => hpos x (List.mem_cons_of_mem e hx)
    rcases captureAndSend_cases intervalMs 0 e with hpair | ⟨img, hpair, _⟩
    · simp only [autoCaptureTimes, hpair]
      exact ih hes
    · simp only [autoCaptureTimes, hpair]
      exact autoCaptureTimes_chain intervalMs es hes e.now (ne_of_gt he)

/-- Witness for C8 at a concrete tick sequence: with a period of 4
milliseconds, ticks at times 1 and 3 both capture and are exactly half
the period apart. -/
theorem autoCapture_debounce_half_interval_check :
    List.Chain' (fun a b => (4 : Int) ≤ 2 * (b - a))
      (autoCaptureTimes 4 0
        [⟨1, surfReady, false, true⟩, ⟨3, surfReady, false, true⟩]) :=
  autoCapture_debounce_half_interval 4
    [⟨1, surfReady, false, true⟩, ⟨3, surfReady, false, true⟩] (by decide)

/-- C1: evaluation of the lifecycle machine at the failing trace. When
the camera is deactivated while `getUserMedia` is still pending and the
acquisition then resolves successfully, the stream starts playing
(one acquisition reaches the Active state) yet no stop call is ever
issued for it, and it is still referenced after unmount: the stop count
(zero) differs from the count of acquisitions that reached Active
(one), so the handle is leaked, contradicting the claim. -/
theorem deactivateDuringAcq_leaks_stream :
    (cameraRun cameraInit deactivateDuringAcqTrace).startedStreams = [0] ∧
    (cameraRun cameraInit deactivateDuringAcqTrace).stopCalls = [] ∧
    (cameraRun cameraInit deactivateDuringAcqTrace).internalStream = some 0 ∧
    (cameraRun cameraInit deactivateDuringAcqTrace).isCameraActive = false := by
  decide

/-- Sanity check of the lifecycle machine: on the ordinary trace the
single acquisition reaches Active and receives exactly one stop call. -/
theorem normalOnOff_stops_started_stream :
    (cameraRun cameraInit normalOnOffTrace).startedStreams = [0] ∧
    (cameraRun cameraInit normalOnOffTrace).stopCalls = [0] ∧
    (cameraRun cameraInit normalOnOffTrace).internalStream = none := by
  decide

end FarqonVision
